import Mathlib

/-!
Verification of the rainfall web server core (`src/rainfall/web.py`):
route matching (`re.match` over an ordered table), the handler invocation
adapter (`HTTPHandler.__call__`), the per-connection dispatch coroutine
(`HTTPServer._call_handler`), the connection lifecycle
(`connection_made` / `data_received` / `_finalize_request` /
`connection_lost` / `timeout`), and `Application.__init__`.
-/

deriving instance DecidableEq for Except

/-- Patterns used as route-table keys are Python regular expressions.
This AST covers the operators route patterns use: literal characters,
`\d` (digit class), concatenation, alternation, `*` (greedy star, from
which `+` is derived), and named groups `(?P<name>...)`. -/
inductive Regex where
  | eps
  | lit (c : Char)
  | digit
  | seq (a b : Regex)
  | alt (a b : Regex)
  | star (a : Regex)
  | group (nm : String) (a : Regex)
deriving Repr, DecidableEq

/-- `groupdict()` of a match: named captures in definition order. -/
abbrev Groups := List (String × String)

/-- Record a named group's captured substring (a later capture of the
same name overwrites an earlier one, as in Python). -/
def setGroup (g : Groups) (nm v : String) : Groups :=
  if g.any (fun p => p.1 = nm) then
    g.map (fun p => if p.1 = nm then (nm, v) else p)
  else g ++ [(nm, v)]

/-- All ways a body regex (given as `m`) can be iterated zero or more
times, greedily, each iteration consuming at least one character (as a
backtracking engine does for `*`: more iterations are preferred, and an
iteration that consumes nothing ends the loop).  Results are listed in
the engine's backtracking priority order; recursion is on the remaining
string length. -/
def starMatches (m : List Char → Groups → List (Groups × List Char)) :
    Nat → List Char → Groups → List (Groups × List Char)
  | 0, s, g => [(g, s)]
  | fuel + 1, s, g =>
    ((m s g).filter (fun pr => pr.2.length < s.length)).flatMap
      (fun pr => starMatches m fuel pr.2 pr.1) ++ [(g, s)]

/-- All matches of a regex against a prefix of `s`, in the backtracking
priority order of Python's engine (greedy, leftmost alternative first).
Each result is the accumulated named captures and the rest of the input
after the consumed prefix.  `re.match` corresponds to the head of this
list: matching is anchored at the start of the string only. -/
def allMatches : Regex → List Char → Groups → List (Groups × List Char)
  | .eps, s, g => [(g, s)]
  | .lit c, s, g =>
    match s with
    | [] => []
    | c' :: rest => if c' = c then [(g, rest)] else []
  | .digit, s, g =>
    match s with
    | [] => []
    | c' :: rest => if c'.isDigit then [(g, rest)] else []
  | .seq a b, s, g =>
    (allMatches a s g).flatMap (fun pr => allMatches b pr.2 pr.1)
  | .alt a b, s, g => allMatches a s g ++ allMatches b s g
  | .star a, s, g => starMatches (fun s' g' => allMatches a s' g') s.length s g
  | .group nm a, s, g =>
    (allMatches a s g).map
      (fun pr => (setGroup pr.1 nm (String.mk (s.take (s.length - pr.2.length))), pr.2))

/-- `re.match(pattern, path)` followed by `.groupdict()` on success:
the first match of the backtracking engine, anchored at the start of
`path` (the end of `path` is not anchored), or `none` when the pattern
does not match at position 0. -/
def reMatch (r : Regex) (path : String) : Option Groups :=
  ((allMatches r path.toList []).head?).map (fun pr => pr.1)

/-- A literal pattern: a regex matching exactly the characters of `l`. -/
def litChars : List Char → Regex
  | [] => Regex.eps
  | c :: l => Regex.seq (Regex.lit c) (litChars l)

/-- A literal pattern from a string, e.g. the route pattern `"/"`. -/
def litStr (s : String) : Regex := litChars s.toList

/-- `r+` as the derived greedy form `r r*`. -/
def rePlus (r : Regex) : Regex := Regex.seq r (Regex.star r)

/-- The route pattern `"/users/(?P<id>\d+)"` from the specification's
end-to-end scenario 2. -/
def usersPattern : Regex :=
  Regex.seq (litStr "/users/") (Regex.group "id" (rePlus Regex.digit))

/-- One inbound HTTP request as `HTTPRequest` exposes it to the server
core: `method` and `path` (raw, the query string still attached).
Modelled from the spec: class `HTTPRequest` lives in `rainfall.http`,
which is not under `src/`; spec 3 gives it `method` and `path`, parsed
from the received bytes by the excluded parser collaborator. -/
structure Request where
  method : String
  path : String
deriving Repr, DecidableEq

/-- The values a handler's `handle()` can evaluate to, as the adapter
distinguishes them: Python `None` (no `return`), a `str`, an
`HTTPError` carrying a status code, or any other Python value, of which
the adapter only ever observes the truthiness (`if handler_result:`),
recorded in the `other` constructor's Boolean.
`HTTPError` is modelled from the spec: the class lives in
`rainfall.http`, absent from `src/`; spec 3 gives it an integer `code`,
and as a plain object it is truthy. -/
inductive PyValue where
  | pyNone
  | pyStr (s : String)
  | httpError (code : Nat)
  | other (truthy : Bool)
deriving Repr, DecidableEq

/-- Python truthiness of the values above: `None` is falsy, a string is
truthy iff nonempty, an `HTTPError` instance is truthy, and an
arbitrary other value carries its own truthiness. -/
def truthy : PyValue → Bool
  | .pyNone => false
  | .pyStr s => s ≠ ""
  | .httpError _ => true
  | .other b => b

/-- What one invocation of `handle()` does: evaluate to a value, or
raise an exception. -/
inductive HandleOutcome where
  | ret (v : PyValue)
  | raised
deriving Repr, DecidableEq

/-- An `HTTPHandler`: `is_coroutine` is the
`getattr(self.handle, '_is_coroutine', False)` flag (true when the
subclass's `handle` is an `asyncio.coroutine`), and `handle` is the
handler's core logic, receiving the request and the keyword arguments
it was called with. -/
structure HTTPHandler where
  is_coroutine : Bool
  handle : Request → Groups → HandleOutcome

/-- Exceptions that can escape `HTTPHandler.__call__`. -/
inductive CallExn where
  | rainfallContract
  | handlerRaised
deriving Repr, DecidableEq

/-- `HTTPHandler.__call__(request, **kwargs)` from `web.py` lines
36-58: a coroutine `handle` is awaited as `self.handle(request,
**kwargs)` while a plain-function `handle` is called as
`self.handle(request)` (no kwargs); the raw result is then classified
starting from `code = 200`, `body = ''`: falsy results leave both
defaults, an `HTTPError` sets the code, a `str` sets the body, and any
other truthy value raises `RainfallException`.  An exception raised by
`handle` itself propagates. -/
def HTTPHandler.call (h : HTTPHandler) (req : Request) (kwargs : Groups) :
    Except CallExn (Nat × String) :=
  match (if h.is_coroutine then h.handle req kwargs else h.handle req []) with
  | .raised => .error .handlerRaised
  | .ret v =>
    if truthy v then
      match v with
      | .httpError c => .ok (c, "")
      | .pyStr s => .ok (200, s)
      | _ => .error .rainfallContract
    else .ok (200, "")

/-- The mutable response object of one connection.
Modelled from the spec: class `HTTPResponse` lives in `rainfall.http`,
absent from `src/`; spec 3 gives `code` initialized to 200 and `body`
initialized empty. -/
structure HTTPResponse where
  code : Nat := 200
  body : String := ""
deriving Repr, DecidableEq

/-- The fragment of the Python standard library table
`http.client.responses` (status code to standard reason phrase) for
common codes; codes outside the table raise `KeyError` in Python,
modelled as `none`. -/
def client_responses : Nat → Option String
  | 200 => some "OK"
  | 201 => some "Created"
  | 204 => some "No Content"
  | 301 => some "Moved Permanently"
  | 302 => some "Found"
  | 400 => some "Bad Request"
  | 401 => some "Unauthorized"
  | 403 => some "Forbidden"
  | 404 => some "Not Found"
  | 405 => some "Method Not Allowed"
  | 500 => some "Internal Server Error"
  | 502 => some "Bad Gateway"
  | 503 => some "Service Unavailable"
  | _ => none

/-- `request.path.split('?')[0]`: the path with the query string
stripped (`web.py` line 98), i.e. every character strictly before the
first `'?'` (the whole path when no `'?'` occurs). -/
def stripQuery (p : String) : String :=
  String.mk (p.toList.takeWhile (fun c => c ≠ '?'))

/-- One access-log line as printed by `_call_handler` (line 121):
method, raw request path, and final response code (the timestamp is the
wall clock, external to the model). -/
structure LogLine where
  method : String
  path : String
  code : Nat
deriving Repr, DecidableEq

/-- The routing-and-invocation loop of `_call_handler` (lines 102-115):
iterate the route table in order; on the first pattern whose `re.match`
succeeds, call the handler with the match's `groupdict()` as kwargs,
recording `(code, body)` on success or code 500 and a captured
exception on failure, and `break`; if no pattern matched (`for ... else`),
the response keeps body `''` and gets code 404.  Returns the response
together with whether an exception was captured for traceback
printing. -/
def dispatch : List (Regex × HTTPHandler) → Request → String → HTTPResponse × Bool
  | [], _, _ => ({ code := 404, body := "" }, false)
  | (p, h) :: rest, req, path =>
    match reMatch p path with
    | some g =>
      (match h.call req g with
       | .ok (c, b) => ({ code := c, body := b }, false)
       | .error _ => ({ code := 500, body := "" }, true))
    | none => dispatch rest req path

/-- The route-table lookup on its own: the first entry (in table order)
whose pattern matches the path, with that pattern's named captures. -/
def findMatch : List (Regex × HTTPHandler) → String → Option (HTTPHandler × Groups)
  | [], _ => none
  | (p, h) :: rest, path =>
    match reMatch p path with
    | some g => some (h, g)
    | none => findMatch rest path

/-- The tail of `_call_handler` (lines 117-121): if the response code
is not 200, overwrite the body with the fallback page built from the
code and its reason phrase from `client.responses` — a code absent from
that table raises `KeyError` there, modelled as `Except.error ()`, in
which case nothing is written or logged.  On success the value collects
the composed response as written to the transport, whether a traceback
is printed, and the access-log line. -/
def finishResponse (pr : HTTPResponse × Bool) (req : Request) :
    Except Unit (HTTPResponse × Bool × LogLine) :=
  if pr.1.code ≠ 200 then
    match client_responses pr.1.code with
    | some phrase =>
      .ok ({ pr.1 with
              body := "<h1>" ++ toString pr.1.code ++ " " ++ phrase ++ "</h1>" },
           pr.2, { method := req.method, path := req.path, code := pr.1.code })
    | none => .error ()
  else
    .ok (pr.1, pr.2, { method := req.method, path := req.path, code := pr.1.code })

/-- `HTTPServer._call_handler(request)` (lines 95-124): strip the query
string, run the routing loop, then compose the final response, the
traceback flag, and the access-log line. -/
def call_handler (handlers : List (Regex × HTTPHandler)) (req : Request) :
    Except Unit (HTTPResponse × Bool × LogLine) :=
  finishResponse (dispatch handlers req (stripQuery req.path)) req

example : call_handler [(litStr "/", ⟨true, fun _ _ => .ret (.pyStr "hi")⟩)]
    ⟨"GET", "/"⟩ =
    .ok ({ code := 200, body := "hi" }, false, ⟨"GET", "/", 200⟩) := rfl

example : call_handler [] ⟨"GET", "/anything"⟩ =
    .ok ({ code := 404, body := "<h1>404 Not Found</h1>" }, false,
         ⟨"GET", "/anything", 404⟩) := rfl

/-- The one-shot timeout timer handle (`asyncio.call_later` result):
still pending, already fired, or cancelled.  `cancel()` on a fired or
already-cancelled handle is a no-op. -/
inductive TimerState where
  | active
  | fired
  | cancelled
deriving Repr, DecidableEq

/-- Callbacks pending on the event loop for one connection: a dispatch
task spawned by `data_received`, the task's `_finalize_request` done
callback, and the `connection_lost` callback the transport schedules
when it closes. -/
inductive Job where
  | task (req : Request)
  | finalize
  | connLost
deriving Repr, DecidableEq

/-- Observable per-connection state: the FIFO of pending callbacks, the
transport (open or closed, with its effect counters), the timer, and
what was written and printed.  `written` records responses whose
`transport.write` found the transport open (an asyncio transport drops
writes after close); `writeCalls` counts all `write` calls; `produced`
counts `HTTPResponse()` constructions; `closeTransitions` and
`cancelTransitions` count the open-to-closed transition of the
transport and the active-to-cancelled transition of the timer (both
underlying operations are idempotent). -/
structure ConnState where
  queue : List Job
  transportOpen : Bool
  timer : TimerState
  written : List HTTPResponse
  writeCalls : Nat
  produced : Nat
  closeTransitions : Nat
  cancelTransitions : Nat
  logs : List LogLine
  traces : Nat
deriving Repr, DecidableEq

/-- `transport.close()`: on an open transport, closes it and lets the
event loop schedule `connection_lost`; on a closed transport, a
no-op. -/
def transportClose (s : ConnState) : ConnState :=
  if s.transportOpen then
    { s with transportOpen := false,
             closeTransitions := s.closeTransitions + 1,
             queue := s.queue ++ [Job.connLost] }
  else s

/-- `h_timeout.cancel()`: cancels a still-pending timer; a no-op on a
fired or already-cancelled one. -/
def timerCancel (s : ConnState) : ConnState :=
  if s.timer = TimerState.active then
    { s with timer := TimerState.cancelled,
             cancelTransitions := s.cancelTransitions + 1 }
  else s

/-- External events driving one connection: a chunk of bytes arriving
(already parsed into its `HTTPRequest`), the timeout timer firing, and
the event loop running the next pending callback. -/
inductive Ev where
  | arrive (req : Request)
  | timerFire
  | runJob
deriving Repr, DecidableEq

/-- One step of the connection lifecycle, from `web.py`:
* `arrive`: `data_received` (lines 85-89) parses the chunk and spawns
  an `asyncio.Task` for `_call_handler` with `_finalize_request` as
  done callback; delivered only while the transport is open.
* `timerFire`: `timeout` (lines 73-75) closes the transport; only a
  still-pending timer can fire.
* `runJob`: the loop runs the oldest pending callback.  A task runs
  `_call_handler`: on normal completion it writes the composed
  response (dropped if the transport is already closed), prints the
  access-log line and, if an exception was captured, the traceback; if
  `_call_handler` itself raised (`KeyError` on an unknown status code)
  nothing is written or printed.  Either way the done callback
  `_finalize_request` is scheduled.  `_finalize_request` (lines 91-93)
  closes the transport and cancels the timer; `connection_lost`
  (lines 126-127) cancels the timer. -/
def connStep (handlers : List (Regex × HTTPHandler)) (s : ConnState) : Ev → ConnState
  | .arrive req =>
    if s.transportOpen then { s with queue := s.queue ++ [Job.task req] } else s
  | .timerFire =>
    if s.timer = TimerState.active then
      transportClose { s with timer := TimerState.fired }
    else s
  | .runJob =>
    match s.queue with
    | [] => s
    | j :: rest =>
      let s' := { s with queue := rest }
      match j with
      | .task req =>
        let s'' := { s' with produced := s'.produced + 1 }
        let s3 :=
          match call_handler handlers req with
          | .ok (resp, exc, log) =>
            { s'' with
              writeCalls := s''.writeCalls + 1,
              written := if s''.transportOpen then s''.written ++ [resp] else s''.written,
              logs := s''.logs ++ [log],
              traces := s''.traces + (if exc then 1 else 0) }
          | .error _ => s''
        { s3 with queue := s3.queue ++ [Job.finalize] }
      | .finalize => timerCancel (transportClose s')
      | .connLost => timerCancel s'

/-- The state `connection_made` (lines 77-83) leaves a fresh connection
in: transport open, the one-shot timeout timer started, nothing pending,
written, or printed. -/
def initConn : ConnState :=
  { queue := [], transportOpen := true, timer := TimerState.active,
    written := [], writeCalls := 0, produced := 0,
    closeTransitions := 0, cancelTransitions := 0, logs := [], traces := 0 }

/-- A connection's lifetime: fold the steps over a sequence of
events. -/
def connRun (handlers : List (Regex × HTTPHandler)) (s : ConnState)
    (evs : List Ev) : ConnState :=
  evs.foldl (connStep handlers) s

/-- The jinja template environment stored on the `HTTPServer` class:
`Environment(loader=FileSystemLoader(settings.get('template_path', '')))`
is determined by the loader's path. -/
structure JinjaEnv where
  template_path : String
deriving Repr, DecidableEq

/-- The `settings` dict passed to `Application`, of which the core
reads only `template_path` (absent modelled as `none`). -/
structure Settings where
  template_path : Option String
deriving Repr, DecidableEq

/-- The class-level attributes of `HTTPServer` (lines 69-71): every
connection object reads these off the class itself. -/
structure ServerClassAttrs where
  _handlers : List (Regex × HTTPHandler)
  _jinja_env : JinjaEnv

/-- `Application.__init__(handlers, settings)` (lines 141-145): stores
the route table and a fresh template environment directly on the
`HTTPServer` class, overwriting whatever was there. -/
def Application.init (handlers : List (Regex × HTTPHandler))
    (settings : Settings) (_g : ServerClassAttrs) : ServerClassAttrs :=
  { _handlers := handlers,
    _jinja_env := { template_path := settings.template_path.getD "" } }

/-- `_call_handler` as a connection actually runs it: the route table
is read from the class-level attributes. -/
def HTTPServer.callFromAttrs (g : ServerClassAttrs) (req : Request) :
    Except Unit (HTTPResponse × Bool × LogLine) :=
  call_handler g._handlers req

/-! ## Routing lemmas -/

/-- The routing loop factored through the route-table lookup: it
invokes exactly the handler `findMatch` selects, with that entry's
captures, and yields 404 when the lookup fails. -/
theorem dispatch_eq_findMatch (handlers : List (Regex × HTTPHandler))
    (req : Request) (path : String) :
    dispatch handlers req path =
      (match findMatch handlers path with
       | some (h, g) =>
         (match h.call req g with
          | .ok (c, b) => ({ code := c, body := b }, false)
          | .error _ => ({ code := 500, body := "" }, true))
       | none => ({ code := 404, body := "" }, false)) := by
  induction handlers with
  | nil => rfl
  | cons e rest ih =>
    obtain ⟨p, h⟩ := e
    simp only [dispatch, findMatch]
    cases reMatch p path <;> simp [ih]

/-- `findMatch` returns the first matching entry: entries before it do
not match, entries after it are irrelevant. -/
theorem findMatch_first (pre post : List (Regex × HTTPHandler)) (p : Regex)
    (h : HTTPHandler) (path : String) (g : Groups)
    (hpre : ∀ q ∈ pre, reMatch q.1 path = none)
    (hp : reMatch p path = some g) :
    findMatch (pre ++ (p, h) :: post) path = some (h, g) := by
  induction pre with
  | nil => simp [findMatch, hp]
  | cons q rest ih =>
    obtain ⟨p', h'⟩ := q
    have hq : reMatch p' path = none := hpre (p', h') (List.mem_cons_self _ _)
    simp only [List.cons_append, findMatch, hq]
    exact ih fun q hq' => hpre q (List.mem_cons_of_mem _ hq')

/-- A table none of whose patterns match yields no lookup result. -/
theorem findMatch_none (handlers : List (Regex × HTTPHandler)) (path : String)
    (hno : ∀ e ∈ handlers, reMatch e.1 path = none) :
    findMatch handlers path = none := by
  induction handlers with
  | nil => rfl
  | cons e rest ih =>
    obtain ⟨p, h⟩ := e
    have hq : reMatch p path = none := hno (p, h) (List.mem_cons_self _ _)
    simp only [findMatch, hq]
    exact ih fun q hq' => hno q (List.mem_cons_of_mem _ hq')

/-- C1: for every route table and request path, the routing loop of
`_call_handler` invokes the handler of the first entry (in table order)
whose pattern matches, with that pattern's named captures, and its
result does not depend on the entries after the first match — later
matching entries are never tried. -/
theorem routing_first_match_wins (pre post post' : List (Regex × HTTPHandler))
    (p : Regex) (h : HTTPHandler) (req : Request) (path : String) (g : Groups)
    (hpre : ∀ q ∈ pre, reMatch q.1 path = none)
    (hp : reMatch p path = some g) :
    dispatch (pre ++ (p, h) :: post) req path =
      (match h.call req g with
       | .ok (c, b) => ({ code := c, body := b }, false)
       | .error _ => ({ code := 500, body := "" }, true)) ∧
    dispatch (pre ++ (p, h) :: post) req path =
      dispatch (pre ++ (p, h) :: post') req path := by
  have k1 := findMatch_first pre post p h path g hpre hp
  have k2 := findMatch_first pre post' p h path g hpre hp
  constructor
  · rw [dispatch_eq_findMatch, k1]
  · rw [dispatch_eq_findMatch, k1, dispatch_eq_findMatch, k2]

/-- A handler whose `handle` is a coroutine returning the text
`"hi"`. -/
def hiHandler : HTTPHandler :=
  ⟨true, fun _ _ => HandleOutcome.ret (PyValue.pyStr "hi")⟩

/-- A handler whose `handle` is a coroutine returning the text
`"ho"`. -/
def hoHandler : HTTPHandler :=
  ⟨true, fun _ _ => HandleOutcome.ret (PyValue.pyStr "ho")⟩

/-- Witness for C1: in the table
`[("/x", ho), ("/", hi), ("/", ho)]` and path `"/"`, the first entry
does not match, the second does, so `hi` is invoked and the shadowed
third entry is irrelevant (here replaced by the empty tail). -/
theorem routing_first_match_wins_witness :
    dispatch ([(litStr "/x", hoHandler)] ++ (litStr "/", hiHandler) :: [(litStr "/", hoHandler)])
        ⟨"GET", "/"⟩ "/" =
      (match hiHandler.call ⟨"GET", "/"⟩ [] with
       | .ok (c, b) => ({ code := c, body := b }, false)
       | .error _ => ({ code := 500, body := "" }, true)) ∧
    dispatch ([(litStr "/x", hoHandler)] ++ (litStr "/", hiHandler) :: [(litStr "/", hoHandler)])
        ⟨"GET", "/"⟩ "/" =
      dispatch ([(litStr "/x", hoHandler)] ++ (litStr "/", hiHandler) :: []) ⟨"GET", "/"⟩ "/" :=
  routing_first_match_wins [(litStr "/x", hoHandler)] [(litStr "/", hoHandler)] []
    (litStr "/") hiHandler ⟨"GET", "/"⟩ "/" []
    (by intro q hq
        rw [List.mem_singleton] at hq
        subst hq
        rfl)
    rfl

/-! ## Anchoring of pattern matching -/

/-- C4 counterexample: `re.match` anchors only the start of the path,
so the literal pattern `"/a"`, which the path `"/ab"` merely begins
with, does match, and routing invokes its handler with a 200 — the
claim says such an entry does not match. -/
theorem pattern_match_not_end_anchored :
    reMatch (litStr "/a") "/ab" = some [] ∧
    call_handler [(litStr "/a", hiHandler)] ⟨"GET", "/ab"⟩ =
      .ok ({ code := 200, body := "hi" }, false, ⟨"GET", "/ab", 200⟩) :=
  ⟨rfl, rfl⟩

/-- A literal pattern consumes exactly its own characters from any
input that starts with them, leaving the rest. -/
theorem allMatches_litChars (l r : List Char) (g : Groups) :
    allMatches (litChars l) (l ++ r) g = [(g, r)] := by
  induction l generalizing g with
  | nil => rfl
  | cons c l ih =>
    simp [litChars, allMatches, ih]

/-- C4 amended: matching mirrors `re.match`, which anchors at the
start of the (query-stripped) path but not at its end: a pattern that
matches a prefix of the path matches.  In particular a literal pattern
`s` matches every path extending `s`, and the route-table lookup
selects its entry on any such path; full-path-only matching would have
to be encoded in the pattern itself (an end anchor). -/
theorem pattern_match_anchored_at_start_only (s t : String) (h : HTTPHandler) :
    reMatch (litStr s) (s ++ t) = some [] ∧
    findMatch [(litStr s, h)] (s ++ t) = some (h, []) := by
  have hl : (s ++ t).toList = s.toList ++ t.toList := String.data_append s t
  have hm : reMatch (litStr s) (s ++ t) = some [] := by
    unfold reMatch litStr
    rw [hl, allMatches_litChars]
    rfl
  exact ⟨hm, by simp [findMatch, hm]⟩

/-! ## Unmatched paths -/

/-- C8: when no entry of the route table matches the query-stripped
path — in particular for the empty table — `_call_handler` composes and
writes the response `404` with exactly the standard fallback body, and
logs the request with code 404. -/
theorem unmatched_path_404 (handlers : List (Regex × HTTPHandler)) (req : Request)
    (hno : ∀ e ∈ handlers, reMatch e.1 (stripQuery req.path) = none) :
    call_handler handlers req =
      .ok ({ code := 404, body := "<h1>404 Not Found</h1>" }, false,
           ⟨req.method, req.path, 404⟩) := by
  unfold call_handler
  rw [dispatch_eq_findMatch, findMatch_none _ _ hno]
  show finishResponse ({ code := 404, body := "" }, false) req = _
  rfl

/-- Witness for C8: the empty table and path `"/anything"`
(specification scenario 3). -/
theorem unmatched_path_404_witness :
    call_handler [] ⟨"GET", "/anything"⟩ =
      .ok ({ code := 404, body := "<h1>404 Not Found</h1>" }, false,
           ⟨"GET", "/anything", 404⟩) :=
  unmatched_path_404 [] ⟨"GET", "/anything"⟩ (by intro e he; cases he)

/-! ## The handler invocation adapter -/

/-- C2 counterexample: a falsy handler result outside the closed set
`None`/`str`/`HTTPError` — e.g. Python `0`, modelled as
`PyValue.other false` — does not raise the contract-violation
`RainfallException`: the `if handler_result:` guard treats it as "no
value" and the adapter returns `(200, "")`.  The claim's "raises a
fault if and only if the result is outside this closed set" is
therefore false at this input. -/
theorem falsy_foreign_result_no_fault :
    HTTPHandler.call ⟨true, fun _ _ => HandleOutcome.ret (PyValue.other false)⟩
        ⟨"GET", "/"⟩ [] = Except.ok (200, "") ∧
    HTTPHandler.call ⟨true, fun _ _ => HandleOutcome.ret (PyValue.other false)⟩
        ⟨"GET", "/"⟩ [] ≠ Except.error CallExn.rainfallContract :=
  ⟨rfl, by decide⟩

/-- C2 amended: when `handle` evaluates to `v`, the adapter classifies
it as: `None` (and any other falsy value) yields `(200, "")`; a string
`s` yields `(200, s)` (for `s = ""` via the falsy branch); an
`HTTPError` of code `c` yields `(c, "")`; and the contract-violation
`RainfallException` is raised if and only if `v` is a *truthy* value
outside the closed set — falsy out-of-set values are silently treated
as "no value". -/
theorem adapter_result_classification (h : HTTPHandler) (req : Request)
    (kw : Groups) (v : PyValue)
    (hv : h.handle req (if h.is_coroutine then kw else []) = HandleOutcome.ret v) :
    (v = PyValue.pyNone → h.call req kw = Except.ok (200, "")) ∧
    (∀ s, v = PyValue.pyStr s → h.call req kw = Except.ok (200, s)) ∧
    (∀ c, v = PyValue.httpError c → h.call req kw = Except.ok (c, "")) ∧
    (∀ b, v = PyValue.other b → h.call req kw = if b then Except.error CallExn.rainfallContract else Except.ok (200, "")) ∧
    (h.call req kw = Except.error CallExn.rainfallContract ↔
       ∃ b, v = PyValue.other b ∧ truthy v = true) := by
  unfold HTTPHandler.call
  rw [← apply_ite (h.handle req), hv]
  rcases v with _ | s | c | b
  · simp [truthy]
  · by_cases hs : s = "" <;> simp [truthy, hs]
  · simp [truthy]
  · cases b <;> simp [truthy]

/-- Witness for C2 amended: a coroutine handler returning
`HTTPError(403)` yields `(403, "")` and no fault. -/
theorem adapter_result_classification_witness :
    ((PyValue.httpError 403 = PyValue.pyNone →
        HTTPHandler.call ⟨true, fun _ _ => HandleOutcome.ret (PyValue.httpError 403)⟩
          ⟨"GET", "/"⟩ [] = Except.ok (200, "")) ∧
     (∀ s, PyValue.httpError 403 = PyValue.pyStr s →
        HTTPHandler.call ⟨true, fun _ _ => HandleOutcome.ret (PyValue.httpError 403)⟩
          ⟨"GET", "/"⟩ [] = Except.ok (200, s)) ∧
     (∀ c, PyValue.httpError 403 = PyValue.httpError c →
        HTTPHandler.call ⟨true, fun _ _ => HandleOutcome.ret (PyValue.httpError 403)⟩
          ⟨"GET", "/"⟩ [] = Except.ok (c, "")) ∧
     (∀ b, PyValue.httpError 403 = PyValue.other b →
        HTTPHandler.call ⟨true, fun _ _ => HandleOutcome.ret (PyValue.httpError 403)⟩
          ⟨"GET", "/"⟩ [] = if b then Except.error CallExn.rainfallContract else Except.ok (200, "")) ∧
     (HTTPHandler.call ⟨true, fun _ _ => HandleOutcome.ret (PyValue.httpError 403)⟩
          ⟨"GET", "/"⟩ [] = Except.error CallExn.rainfallContract ↔
        ∃ b, PyValue.httpError 403 = PyValue.other b ∧ truthy (PyValue.httpError 403) = true)) :=
  adapter_result_classification
    ⟨true, fun _ _ => HandleOutcome.ret (PyValue.httpError 403)⟩
    ⟨"GET", "/"⟩ [] (PyValue.httpError 403) rfl

/-! ## Captures and the sync/async asymmetry -/

/-- A handler whose `handle` reports, in its text result, exactly the
keyword arguments it was invoked with; `isCo` selects whether `handle`
is a coroutine. -/
def kwargsProbe (isCo : Bool) : HTTPHandler :=
  ⟨isCo, fun _ kw =>
    HandleOutcome.ret (PyValue.pyStr
      ("kwargs:" ++ String.intercalate "," (kw.map (fun pr => pr.1 ++ "=" ++ pr.2))))⟩

/-- C3: the pattern `"/users/(?P<id>\d+)"` matched against
`"/users/42"` captures `id = "42"`, and a *coroutine* handler receives
that capture as a keyword argument — but a plain-function handler bound
to the same route is invoked as `self.handle(request)` (line 49),
without the captures: its kwargs are empty.  This evaluates the code at
the failing input of the claim that both kinds receive the
captures. -/
theorem sync_handler_does_not_receive_captures :
    reMatch usersPattern "/users/42" = some [("id", "42")] ∧
    call_handler [(usersPattern, kwargsProbe true)] ⟨"GET", "/users/42"⟩ =
      .ok ({ code := 200, body := "kwargs:id=42" }, false, ⟨"GET", "/users/42", 200⟩) ∧
    call_handler [(usersPattern, kwargsProbe false)] ⟨"GET", "/users/42"⟩ =
      .ok ({ code := 200, body := "kwargs:" }, false, ⟨"GET", "/users/42", 200⟩) :=
  ⟨rfl, rfl, rfl⟩

/-! ## Fallback bodies for error statuses -/

/-- C5: whenever `_call_handler` completes with a final status that is
not a 2xx success, the composed body is exactly the standard fallback
fragment built from the code and its reason phrase; in particular a
handler whose invocation yields `(c, b)` with `c` non-2xx gets the
response `(c, fallback)` with the handler's own body text `b`
discarded. -/
theorem non2xx_final_gets_fallback_body (handlers : List (Regex × HTTPHandler))
    (req : Request) :
    (∀ resp exc log, call_handler handlers req = Except.ok (resp, exc, log) →
       ¬(200 ≤ resp.code ∧ resp.code < 300) →
       ∃ phrase, client_responses resp.code = some phrase ∧
         resp.body = "<h1>" ++ toString resp.code ++ " " ++ phrase ++ "</h1>") ∧
    (∀ h g c b phrase, findMatch handlers (stripQuery req.path) = some (h, g) →
       h.call req g = Except.ok (c, b) → ¬(200 ≤ c ∧ c < 300) →
       client_responses c = some phrase →
       call_handler handlers req =
         Except.ok ({ code := c, body := "<h1>" ++ toString c ++ " " ++ phrase ++ "</h1>" },
                    false, ⟨req.method, req.path, c⟩)) := by
  constructor
  · intro resp exc log hok hnot
    unfold call_handler finishResponse at hok
    by_cases h200 : (dispatch handlers req (stripQuery req.path)).1.code ≠ 200
    · rw [if_pos h200] at hok
      rcases hcr : client_responses (dispatch handlers req (stripQuery req.path)).1.code with _ | phrase
      · rw [hcr] at hok
        cases hok
      · rw [hcr] at hok
        injection hok with h1
        injection h1 with hresp h2
        subst hresp
        exact ⟨phrase, hcr, rfl⟩
    · rw [if_neg h200] at hok
      push_neg at h200
      injection hok with h1
      injection h1 with hresp h2
      subst hresp
      exact absurd ⟨by rw [h200], by rw [h200]; norm_num⟩ hnot
  · intro h g c b phrase hm hc hnot hcr
    have hne : c ≠ 200 := by
      intro hcc
      exact hnot ⟨by rw [hcc], by rw [hcc]; norm_num⟩
    unfold call_handler
    rw [dispatch_eq_findMatch, hm]
    show finishResponse
        (match h.call req g with
         | .ok (c, b) => ({ code := c, body := b }, false)
         | .error _ => ({ code := 500, body := "" }, true)) req = _
    rw [hc]
    show finishResponse ({ code := c, body := b }, false) req = _
    unfold finishResponse
    simp only [if_pos hne, hcr]

/-- A handler whose `handle` is a coroutine returning
`HTTPError(403)`. -/
def errHandler : HTTPHandler :=
  ⟨true, fun _ _ => HandleOutcome.ret (PyValue.httpError 403)⟩

/-- Witness for C5: a handler declaring a 403 produces
`(403, "<h1>403 Forbidden</h1>")`. -/
theorem non2xx_final_gets_fallback_body_witness :
    call_handler [(litStr "/", errHandler)] ⟨"GET", "/"⟩ =
      Except.ok ({ code := 403, body := "<h1>" ++ toString 403 ++ " " ++ "Forbidden" ++ "</h1>" },
                 false, ⟨"GET", "/", 403⟩) :=
  (non2xx_final_gets_fallback_body [(litStr "/", errHandler)] ⟨"GET", "/"⟩).2
    errHandler [] 403 "" "Forbidden" rfl rfl (by decide) rfl

/-! ## Connection lifecycle -/

/-- C6: if the matched handler's invocation raises (any exception),
`_call_handler` catches it and completes normally — nothing escapes the
connection's dispatch task — composing `(500, fallback)` with the
traceback flagged for printing; a connection then receiving that one
chunk writes exactly that response, logs the request with code 500,
prints one traceback, and undergoes exactly one transport
open-to-closed transition and exactly one timer active-to-cancelled
transition (the later `cancel()` from `connection_lost` finds the timer
already cancelled and is a no-op). -/
theorem handler_fault_isolated_500 (handlers : List (Regex × HTTPHandler))
    (req : Request) (h : HTTPHandler) (g : Groups) (e : CallExn)
    (hm : findMatch handlers (stripQuery req.path) = some (h, g))
    (hr : h.call req g = Except.error e) :
    call_handler handlers req =
      Except.ok ({ code := 500, body := "<h1>500 Internal Server Error</h1>" }, true,
                 ⟨req.method, req.path, 500⟩) ∧
    connRun handlers initConn [Ev.arrive req, Ev.runJob, Ev.runJob, Ev.runJob] =
      { queue := [], transportOpen := false, timer := TimerState.cancelled,
        written := [{ code := 500, body := "<h1>500 Internal Server Error</h1>" }],
        writeCalls := 1, produced := 1, closeTransitions := 1, cancelTransitions := 1,
        logs := [⟨req.method, req.path, 500⟩], traces := 1 } := by
  have hch : call_handler handlers req =
      Except.ok ({ code := 500, body := "<h1>500 Internal Server Error</h1>" }, true,
                 ⟨req.method, req.path, 500⟩) := by
    unfold call_handler
    rw [dispatch_eq_findMatch, hm]
    show finishResponse
        (match h.call req g with
         | .ok (c, b) => ({ code := c, body := b }, false)
         | .error _ => ({ code := 500, body := "" }, true)) req = _
    rw [hr]
    show finishResponse ({ code := 500, body := "" }, true) req = _
    rfl
  refine ⟨hch, ?_⟩
  simp [connRun, connStep, initConn, transportClose, timerCancel, hch]

/-- A handler whose `handle` raises. -/
def raiseHandler : HTTPHandler := ⟨true, fun _ _ => HandleOutcome.raised⟩

/-- Witness for C6: a raising handler on `"/"` (specification
scenario 4). -/
theorem handler_fault_isolated_500_witness :
    call_handler [(litStr "/", raiseHandler)] ⟨"GET", "/"⟩ =
      Except.ok ({ code := 500, body := "<h1>500 Internal Server Error</h1>" }, true,
                 ⟨"GET", "/", 500⟩) ∧
    connRun [(litStr "/", raiseHandler)] initConn
        [Ev.arrive ⟨"GET", "/"⟩, Ev.runJob, Ev.runJob, Ev.runJob] =
      { queue := [], transportOpen := false, timer := TimerState.cancelled,
        written := [{ code := 500, body := "<h1>500 Internal Server Error</h1>" }],
        writeCalls := 1, produced := 1, closeTransitions := 1, cancelTransitions := 1,
        logs := [⟨"GET", "/", 500⟩], traces := 1 } :=
  handler_fault_isolated_500 [(litStr "/", raiseHandler)] ⟨"GET", "/"⟩
    raiseHandler [] CallExn.handlerRaised rfl rfl

/-- C7 counterexample: `data_received` spawns a fresh dispatch task per
chunk, so a connection receiving two chunks before the first task runs
produces two `HTTPResponse` objects and writes both to the still-open
transport — refuting "at most one Response is produced and written per
connection, regardless of how many chunks arrive". -/
theorem two_chunks_two_responses_written :
    (connRun [(litStr "/", hiHandler)] initConn
        [Ev.arrive ⟨"GET", "/"⟩, Ev.arrive ⟨"GET", "/"⟩,
         Ev.runJob, Ev.runJob, Ev.runJob, Ev.runJob, Ev.runJob]).written =
      [{ code := 200, body := "hi" }, { code := 200, body := "hi" }] ∧
    (connRun [(litStr "/", hiHandler)] initConn
        [Ev.arrive ⟨"GET", "/"⟩, Ev.arrive ⟨"GET", "/"⟩,
         Ev.runJob, Ev.runJob, Ev.runJob, Ev.runJob, Ev.runJob]).produced = 2 ∧
    (connRun [(litStr "/", hiHandler)] initConn
        [Ev.arrive ⟨"GET", "/"⟩, Ev.arrive ⟨"GET", "/"⟩,
         Ev.runJob, Ev.runJob, Ev.runJob, Ev.runJob, Ev.runJob]).writeCalls = 2 :=
  ⟨rfl, rfl, rfl⟩

/-! ## Application construction -/

/-- C10: `Application.__init__` stores the route table and a fresh
template environment on the `HTTPServer` *class*; a second construction
overwrites the first one completely (the result does not depend on the
previous attributes), and every connection's `_call_handler`, reading
the class attributes, dispatches against the most recently supplied
table. -/
theorem application_init_overwrites_class_attrs (g : ServerClassAttrs)
    (h1 h2 : List (Regex × HTTPHandler)) (s1 s2 : Settings) (req : Request) :
    Application.init h2 s2 (Application.init h1 s1 g) = Application.init h2 s2 g ∧
    (Application.init h2 s2 (Application.init h1 s1 g))._handlers = h2 ∧
    HTTPServer.callFromAttrs (Application.init h2 s2 (Application.init h1 s1 g)) req =
      call_handler h2 req :=
  ⟨rfl, rfl, rfl⟩

/-! ## Per-connection invariants -/

/-- Is this event the arrival of a data chunk? -/
def isArrive : Ev → Bool
  | .arrive _ => true
  | _ => false

/-- Is this pending callback a dispatch task? -/
def isTask : Job → Bool
  | .task _ => true
  | _ => false

/-- Number of dispatch tasks pending in a callback queue. -/
def taskCount (q : List Job) : Nat := (q.filter isTask).length

theorem taskCount_append (q r : List Job) :
    taskCount (q ++ r) = taskCount q + taskCount r := by
  simp [taskCount, List.filter_append]

theorem taskCount_cons (j : Job) (r : List Job) :
    taskCount (j :: r) = (if isTask j then 1 else 0) + taskCount r := by
  cases h : isTask j <;> simp [taskCount, List.filter_cons, h] <;> omega


/-- One step never grows the written-response list past the number of
produced responses. -/
theorem connStep_written_le_produced (handlers : List (Regex × HTTPHandler))
    (s : ConnState) (e : Ev)
    (h1 : s.written.length ≤ s.produced) :
    (connStep handlers s e).written.length ≤ (connStep handlers s e).produced := by
  cases e with
  | arrive req =>
    by_cases ho : s.transportOpen <;> simp [connStep, ho, h1]
  | timerFire =>
    by_cases ht : s.timer = TimerState.active
    · by_cases ho : s.transportOpen <;> simp [connStep, ht, ho, transportClose, h1]
    · simp [connStep, ht, h1]
  | runJob =>
    match hqe : s.queue with
    | [] => simp [connStep, hqe, h1]
    | j :: rest =>
      cases j with
      | task req =>
        simp only [connStep, hqe]
        rcases hch : call_handler handlers req with _ | ⟨resp, exc, log⟩
        · simpa using h1.trans (Nat.le_succ _)
        · by_cases ho : s.transportOpen <;> simp [ho] <;> omega
      | finalize =>
        simp only [connStep, hqe]
        by_cases ho : s.transportOpen <;>
          by_cases ht : s.timer = TimerState.active <;>
          simp [transportClose, timerCancel, ho, ht, h1]
      | connLost =>
        simp only [connStep, hqe]
        by_cases ht : s.timer = TimerState.active <;> simp [timerCancel, ht, h1]

/-- One step grows produced-plus-pending-tasks by at most one, and only
on a chunk arrival. -/
theorem connStep_produced_bound (handlers : List (Regex × HTTPHandler))
    (s : ConnState) (e : Ev) :
    (connStep handlers s e).produced + taskCount (connStep handlers s e).queue ≤
      s.produced + taskCount s.queue + (if isArrive e then 1 else 0) := by
  cases e with
  | arrive req =>
    by_cases ho : s.transportOpen <;>
      simp [connStep, ho, isArrive, taskCount_append, taskCount, isTask] <;>
      omega
  | timerFire =>
    by_cases ht : s.timer = TimerState.active
    · by_cases ho : s.transportOpen <;>
        simp [connStep, ht, ho, transportClose, isArrive, taskCount_append,
              taskCount, isTask]
    · simp [connStep, ht, isArrive]
  | runJob =>
    match hqe : s.queue with
    | [] => simp [connStep, hqe, isArrive]
    | j :: rest =>
      rw [taskCount_cons]
      cases j with
      | task req =>
        simp only [connStep, hqe]
        rcases hch : call_handler handlers req with _ | ⟨resp, exc, log⟩
        · simp [isArrive, isTask, taskCount_append, taskCount]
          omega
        · by_cases ho : s.transportOpen <;>
            simp [ho, isArrive, isTask, taskCount_append, taskCount] <;> omega
      | finalize =>
        simp only [connStep, hqe]
        by_cases ho : s.transportOpen <;>
          by_cases ht : s.timer = TimerState.active <;>
          simp [transportClose, timerCancel, ho, ht, isArrive, isTask,
                taskCount_append, taskCount] <;> omega
      | connLost =>
        simp only [connStep, hqe]
        by_cases ht : s.timer = TimerState.active <;>
          simp [timerCancel, ht, isArrive, isTask, taskCount] <;> omega

/-- One step preserves "a closed transport implies a non-pending
timer". -/
theorem connStep_closed_timer (handlers : List (Regex × HTTPHandler))
    (s : ConnState) (e : Ev)
    (h3 : s.transportOpen = false → s.timer ≠ TimerState.active) :
    (connStep handlers s e).transportOpen = false →
      (connStep handlers s e).timer ≠ TimerState.active := by
  cases e with
  | arrive req =>
    by_cases ho : s.transportOpen <;> simp [connStep, ho, h3] <;> simp_all
  | timerFire =>
    by_cases ht : s.timer = TimerState.active
    · by_cases ho : s.transportOpen <;>
        simp [connStep, ht, ho, transportClose]
    · simp [connStep, ht, h3]
  | runJob =>
    match hqe : s.queue with
    | [] =>
      simp only [connStep, hqe]
      exact h3
    | j :: rest =>
      cases j with
      | task req =>
        simp only [connStep, hqe]
        rcases hch : call_handler handlers req with _ | ⟨resp, exc, log⟩
        · simpa using h3
        · by_cases ho : s.transportOpen <;> simp [ho, h3] <;> simp_all
      | finalize =>
        simp only [connStep, hqe]
        by_cases ho : s.transportOpen <;>
          by_cases ht : s.timer = TimerState.active <;>
          simp [transportClose, timerCancel, ho, ht, h3] <;> simp_all
      | connLost =>
        simp only [connStep, hqe]
        by_cases ht : s.timer = TimerState.active <;> simp [timerCancel, ht, h3] <;>
          simp_all

/-- The three step invariants folded over a whole event sequence. -/
theorem connRun_invariant (handlers : List (Regex × HTTPHandler)) (evs : List Ev) :
    ∀ (s : ConnState) (n : Nat),
      s.written.length ≤ s.produced →
      s.produced + taskCount s.queue ≤ n →
      (s.transportOpen = false → s.timer ≠ TimerState.active) →
      (connRun handlers s evs).written.length ≤ (connRun handlers s evs).produced ∧
      (connRun handlers s evs).produced + taskCount (connRun handlers s evs).queue ≤
        n + (evs.filter isArrive).length ∧
      ((connRun handlers s evs).transportOpen = false →
        (connRun handlers s evs).timer ≠ TimerState.active) := by
  induction evs with
  | nil =>
    intro s n h1 h2 h3
    exact ⟨h1, by simpa [connRun] using h2, h3⟩
  | cons e rest ih =>
    intro s n h1 h2 h3
    have g1 := connStep_written_le_produced handlers s e h1
    have g2 := (connStep_produced_bound handlers s e).trans
      (Nat.add_le_add_right h2 _)
    have g3 := connStep_closed_timer handlers s e h3
    have hrun : connRun handlers s (e :: rest) =
        connRun handlers (connStep handlers s e) rest := rfl
    obtain ⟨k1, k2, k3⟩ := ih (connStep handlers s e)
      (n + if isArrive e then 1 else 0) g1 g2 g3
    refine ⟨by rw [hrun]; exact k1, ?_, by rw [hrun]; exact k3⟩
    rw [hrun]
    refine k2.trans ?_
    cases he : isArrive e <;> simp [List.filter_cons, he] <;> omega

/-- C7 amended: `data_received` spawns one dispatch task per received
chunk, and each task produces and writes at most one Response, so over
a whole connection the number of Responses produced (and a fortiori
written) is bounded by the number of chunks received — per chunk, not
per connection; a connection receiving at most one chunk still gets at
most one Response.  The timer clause of the claim holds as stated:
whenever the transport is closed the timeout timer is no longer
pending (cancelled by `_finalize_request`/`connection_lost`, or the
very timer that fired to cause the close) — never left dangling. -/
theorem responses_bounded_by_chunks_timer_not_dangling
    (handlers : List (Regex × HTTPHandler)) (evs : List Ev) :
    (connRun handlers initConn evs).written.length ≤
      (connRun handlers initConn evs).produced ∧
    (connRun handlers initConn evs).produced ≤ (evs.filter isArrive).length ∧
    ((connRun handlers initConn evs).transportOpen = false →
      (connRun handlers initConn evs).timer ≠ TimerState.active) := by
  obtain ⟨g1, g2, g3⟩ := connRun_invariant handlers evs initConn 0
    (by simp [initConn]) (by simp [initConn, taskCount]) (by simp [initConn])
  exact ⟨g1, by omega, g3⟩

/-- Witness for C7 amended: one chunk, fully processed — one response
written, one produced, transport closed with the timer cancelled. -/
theorem responses_bounded_by_chunks_timer_not_dangling_witness :
    (connRun [(litStr "/", hiHandler)] initConn
        [Ev.arrive ⟨"GET", "/"⟩, Ev.runJob, Ev.runJob, Ev.runJob]).written.length ≤
      (connRun [(litStr "/", hiHandler)] initConn
        [Ev.arrive ⟨"GET", "/"⟩, Ev.runJob, Ev.runJob, Ev.runJob]).produced ∧
    (connRun [(litStr "/", hiHandler)] initConn
        [Ev.arrive ⟨"GET", "/"⟩, Ev.runJob, Ev.runJob, Ev.runJob]).produced ≤
      ([Ev.arrive ⟨"GET", "/"⟩, Ev.runJob, Ev.runJob, Ev.runJob].filter isArrive).length ∧
    ((connRun [(litStr "/", hiHandler)] initConn
        [Ev.arrive ⟨"GET", "/"⟩, Ev.runJob, Ev.runJob, Ev.runJob]).transportOpen = false →
      (connRun [(litStr "/", hiHandler)] initConn
        [Ev.arrive ⟨"GET", "/"⟩, Ev.runJob, Ev.runJob, Ev.runJob]).timer ≠ TimerState.active) :=
  responses_bounded_by_chunks_timer_not_dangling [(litStr "/", hiHandler)]
    [Ev.arrive ⟨"GET", "/"⟩, Ev.runJob, Ev.runJob, Ev.runJob]

/-! ## Timeout with no data -/

/-- A step never reopens a closed transport. -/
theorem connStep_closed_mono (handlers : List (Regex × HTTPHandler))
    (s : ConnState) (e : Ev) (hc : s.transportOpen = false) :
    (connStep handlers s e).transportOpen = false := by
  cases e with
  | arrive req => simp [connStep, hc]
  | timerFire =>
    by_cases ht : s.timer = TimerState.active <;>
      simp [connStep, ht, transportClose, hc]
  | runJob =>
    match hqe : s.queue with
    | [] => simp [connStep, hqe, hc]
    | j :: rest =>
      cases j with
      | task req =>
        simp only [connStep, hqe]
        rcases hch : call_handler handlers req with _ | ⟨resp, exc, log⟩ <;>
          simp [hc]
      | finalize =>
        simp only [connStep, hqe]
        by_cases ht : s.timer = TimerState.active <;>
          simp [transportClose, timerCancel, hc, ht]
      | connLost =>
        simp only [connStep, hqe]
        by_cases ht : s.timer = TimerState.active <;> simp [timerCancel, hc, ht]

/-- A closed transport stays closed over any event sequence. -/
theorem connRun_closed_mono (handlers : List (Regex × HTTPHandler)) (evs : List Ev) :
    ∀ s : ConnState, s.transportOpen = false →
      (connRun handlers s evs).transportOpen = false := by
  induction evs with
  | nil => intro s hc; exact hc
  | cons e rest ih =>
    intro s hc
    exact ih (connStep handlers s e) (connStep_closed_mono handlers s e hc)

/-- Invariant of a connection that has received no data: only
`connection_lost` notifications are ever pending, nothing has been
produced, written, or logged, a non-pending timer means the transport
is already closed, and a nonempty queue means the transport is already
closed.  Preserved by every event except a chunk arrival. -/
theorem connStep_no_data (handlers : List (Regex × HTTPHandler)) (s : ConnState)
    (e : Ev) (he : e = Ev.timerFire ∨ e = Ev.runJob)
    (hq : ∀ j ∈ s.queue, j = Job.connLost)
    (hw : s.written = []) (hwc : s.writeCalls = 0) (hp : s.produced = 0)
    (hl : s.logs = [])
    (hr : s.timer ≠ TimerState.active → s.transportOpen = false)
    (hs : s.queue ≠ [] → s.transportOpen = false) :
    (∀ j ∈ (connStep handlers s e).queue, j = Job.connLost) ∧
    (connStep handlers s e).written = [] ∧
    (connStep handlers s e).writeCalls = 0 ∧
    (connStep handlers s e).produced = 0 ∧
    (connStep handlers s e).logs = [] ∧
    ((connStep handlers s e).timer ≠ TimerState.active →
      (connStep handlers s e).transportOpen = false) ∧
    ((connStep handlers s e).queue ≠ [] →
      (connStep handlers s e).transportOpen = false) := by
  rcases he with he | he <;> subst he
  · by_cases ht : s.timer = TimerState.active
    · by_cases ho : s.transportOpen <;>
        simp only [connStep, ht, ho, transportClose, if_true, if_false, ite_true,
                   ite_false, reduceIte] <;>
        refine ⟨?_, hw, hwc, hp, hl, by simp, by simp⟩ <;>
        intro j hj
      · rcases List.mem_append.mp hj with hj' | hj'
        · exact hq j hj'
        · simpa using hj'
      · exact hq j hj
    · simp only [connStep, ht, ite_false, reduceIte, if_neg ht]
      exact ⟨hq, hw, hwc, hp, hl, hr, hs⟩
  · match hqe : s.queue with
    | [] =>
      simp only [connStep, hqe]
      exact ⟨by simp, hw, hwc, hp, hl, hr, fun h => absurd rfl h⟩
    | j :: rest =>
      have hj : j = Job.connLost := hq j (hqe ▸ List.mem_cons_self _ _)
      subst hj
      have hco : s.transportOpen = false := hs (by rw [hqe]; simp)
      simp only [connStep, hqe]
      by_cases ht : s.timer = TimerState.active <;>
        simp [timerCancel, ht, hw, hwc, hp, hl, hco] <;>
        exact fun j hj => hq j (hqe ▸ List.mem_cons_of_mem _ hj)

/-- C9: a connection that receives no data (every event is the timer
firing or the loop draining callbacks) and whose timeout fires is left
with a closed transport, nothing ever written (`transport.write` is
never even called), no response produced, and no access-log line
emitted. -/
theorem idle_timeout_closes_silently (handlers : List (Regex × HTTPHandler))
    (evs : List Ev)
    (hq : ∀ e ∈ evs, e = Ev.timerFire ∨ e = Ev.runJob)
    (hf : Ev.timerFire ∈ evs) :
    (connRun handlers initConn evs).transportOpen = false ∧
    (connRun handlers initConn evs).written = [] ∧
    (connRun handlers initConn evs).writeCalls = 0 ∧
    (connRun handlers initConn evs).produced = 0 ∧
    (connRun handlers initConn evs).logs = [] := by
  suffices key : ∀ (evs : List Ev) (s : ConnState),
      (∀ e ∈ evs, e = Ev.timerFire ∨ e = Ev.runJob) →
      (∀ j ∈ s.queue, j = Job.connLost) →
      s.written = [] → s.writeCalls = 0 → s.produced = 0 → s.logs = [] →
      (s.timer ≠ TimerState.active → s.transportOpen = false) →
      (s.queue ≠ [] → s.transportOpen = false) →
      (Ev.timerFire ∈ evs → (connRun handlers s evs).transportOpen = false) ∧
      (connRun handlers s evs).written = [] ∧
      (connRun handlers s evs).writeCalls = 0 ∧
      (connRun handlers s evs).produced = 0 ∧
      (connRun handlers s evs).logs = [] by
    obtain ⟨k1, k2, k3, k4, k5⟩ := key evs initConn hq
      (by simp [initConn]) rfl rfl rfl rfl
      (by simp [initConn]) (by simp [initConn])
    exact ⟨k1 hf, k2, k3, k4, k5⟩
  intro evs
  induction evs with
  | nil =>
    intro s _ _ hw hwc hp hl _ _
    exact ⟨fun hmem => absurd hmem (List.not_mem_nil _), hw, hwc, hp, hl⟩
  | cons e rest ih =>
    intro s hqe hq hw hwc hp hl hr hs
    have he : e = Ev.timerFire ∨ e = Ev.runJob := hqe e (List.mem_cons_self _ _)
    obtain ⟨g1, g2, g3, g4, g5, g6, g7⟩ :=
      connStep_no_data handlers s e he hq hw hwc hp hl hr hs
    have hrest : ∀ e' ∈ rest, e' = Ev.timerFire ∨ e' = Ev.runJob :=
      fun e' he' => hqe e' (List.mem_cons_of_mem _ he')
    obtain ⟨k1, k2, k3, k4, k5⟩ := ih (connStep handlers s e) hrest g1 g2 g3 g4 g5 g6 g7
    have hrun : connRun handlers s (e :: rest) =
        connRun handlers (connStep handlers s e) rest := rfl
    refine ⟨?_, by rw [hrun]; exact k2, by rw [hrun]; exact k3,
            by rw [hrun]; exact k4, by rw [hrun]; exact k5⟩
    intro hmem
    rw [hrun]
    rcases List.mem_cons.mp hmem with hef | hef
    · subst hef
      have hclosed : (connStep handlers s Ev.timerFire).transportOpen = false := by
        by_cases ht : s.timer = TimerState.active
        · by_cases ho : s.transportOpen <;>
            simp [connStep, ht, ho, transportClose]
        · simpa [connStep, ht] using hr ht
      exact connRun_closed_mono handlers rest _ hclosed
    · exact k1 hef

/-- Witness for C9: the timer fires on an idle connection and the loop
delivers the resulting `connection_lost`; nothing was written, produced,
or logged (specification scenario 5). -/
theorem idle_timeout_closes_silently_witness :
    (connRun [(litStr "/", hiHandler)] initConn [Ev.timerFire, Ev.runJob]).transportOpen = false ∧
    (connRun [(litStr "/", hiHandler)] initConn [Ev.timerFire, Ev.runJob]).written = [] ∧
    (connRun [(litStr "/", hiHandler)] initConn [Ev.timerFire, Ev.runJob]).writeCalls = 0 ∧
    (connRun [(litStr "/", hiHandler)] initConn [Ev.timerFire, Ev.runJob]).produced = 0 ∧
    (connRun [(litStr "/", hiHandler)] initConn [Ev.timerFire, Ev.runJob]).logs = [] :=
  idle_timeout_closes_silently [(litStr "/", hiHandler)] [Ev.timerFire, Ev.runJob]
    (by intro e he
        rcases List.mem_cons.mp he with h' | h'
        · exact Or.inl h'
        · exact Or.inr (by simpa using h'))
    (List.mem_cons_self _ _)
